import Mathlib

/-!
Shallow embedding of `src/main.py` of the cover-letter-generator repository.

The program is a PySide6 application.  The widget layer is modelled as plain
data: the text held by each text widget is a `String`, the active tab index of
the `QTabWidget` is a `Nat` (0 = "Paste Webpage" / Source phase, 1 =
"Cover Letter" / Review phase), and the chat transcript shown in
`chat_display` is the list of appended lines.  The LangChain pieces are
modelled as follows:

* `ConversationBufferMemory` is a list of chat messages (`ChatMsg`); a
  successful `ConversationChain.run(input)` appends the human message and the
  assistant reply to the memory (LangChain saves the context only after the
  LLM call returns; on an exception the memory is unchanged).
* the LLM backend is an abstract function (`Backend`) from the credential-bound
  handle, the accumulated memory and the new input to either a reply together
  with its token usage, or an error (`Except.error`), covering network/auth
  failures which in Python surface as exceptions.
* `get_openai_callback` creates a fresh token counter starting at zero; the
  counter local to one `count_tokens` call is made explicit in the embedding.

Every function that can reach the backend also returns the list of backend
call records (`CallRec`) it issued, in order, so that "how many backend calls
were made, with which context" is directly observable.  Python's `str.strip()`
is modelled by `pyStrip` (drop whitespace from both ends, by structural
recursion so that proofs compute) and Python's string truthiness (`if s:`)
by `s ≠ ""`.
-/

namespace CoverLetter

/-- Python's `str.strip()` with no argument: remove leading and trailing
whitespace characters. -/
def pyStrip (s : String) : String :=
  ⟨((s.data.dropWhile Char.isWhitespace).reverse.dropWhile Char.isWhitespace).reverse⟩

/-- The `Settings` dataclass of `main.py` (lines 39-43). -/
structure Settings where
  api_key : String
  resume : String
  initial_prompt : String
deriving DecidableEq, Repr

/-- One message stored in the `ConversationBufferMemory`: either a human
(user) message or an AI (assistant) reply. -/
inductive ChatMsg where
  | user (content : String)
  | ai (content : String)
deriving DecidableEq, Repr

/-- The `ChatOpenAI` handle created in `MainWindow.__init__` (line 224): a
model name and the credential it is bound to. -/
structure LLMHandle where
  model : String
  api_key : String
deriving DecidableEq, Repr

/-- A record of one backend (LLM) call: which handle it went through, the
conversation context it was issued with, and the new input string. -/
structure CallRec where
  llm : LLMHandle
  ctx : List ChatMsg
  input : String
deriving DecidableEq, Repr

/-- The abstract generation backend: given the handle, the accumulated
conversation context and a new input, it either returns a reply plus the
token usage of the call, or fails. -/
def Backend : Type :=
  LLMHandle → List ChatMsg → String → Except String (String × Nat)

/-- The state of `MainWindow` that the workflow logic reads and writes:
the settings object, the persisted `settings.json` file, the `ChatOpenAI`
handle, the conversation memory, and the texts/tab of the widgets. -/
structure AppState where
  settings : Settings
  persistedFile : Option Settings
  llm : LLMHandle
  memory : List ChatMsg
  htmlEditor : String
  coverLetterDisplay : String
  chatDisplay : List String
  chatInput : String
  tabIndex : Nat
deriving DecidableEq, Repr

/-- One `self.chain.run(input)` call of the `ConversationChain`: issues the
backend call with the current memory as context; on success LangChain appends
the human message and the AI reply to the memory; on failure the memory is
unchanged.  Returns the call record, and the reply, updated memory and token
usage (or the error). -/
def chainRun (b : Backend) (llm : LLMHandle) (mem : List ChatMsg) (input : String) :
    List CallRec × Except String (String × List ChatMsg × Nat) :=
  match b llm mem input with
  | .ok (reply, toks) =>
      ([⟨llm, mem, input⟩], .ok (reply, mem ++ [ChatMsg.user input, ChatMsg.ai reply], toks))
  | .error e => ([⟨llm, mem, input⟩], .error e)

/-- The `count_tokens` helper (lines 128-131): runs the chain inside a fresh
`get_openai_callback` whose total-token counter starts at zero, and returns
the result together with `callback.total_tokens`. -/
def count_tokens (b : Backend) (llm : LLMHandle) (mem : List ChatMsg) (query : String) :
    List CallRec × Except String (String × Nat × List ChatMsg) :=
  let callbackTotalTokens : Nat := 0
  match chainRun b llm mem query with
  | (calls, .ok (result, memAfter, toks)) =>
      (calls, .ok (result, callbackTotalTokens + toks, memAfter))
  | (calls, .error e) => (calls, .error e)

/-- The `prompt_components` list of `call_generate_cover_letter`
(lines 356-366), verbatim from the source. -/
def prompt_components (settings : Settings) (sourceText : String) : List String :=
  [settings.initial_prompt,
   "Here is the resume:",
   "```",
   settings.resume,
   "```",
   "Here is the webpage content:",
   "```",
   pyStrip sourceText,
   "```"]

/-- The prompt built by `call_generate_cover_letter` (line 367):
`'\n'.join(prompt_components)`. -/
def generation_prompt (settings : Settings) (sourceText : String) : String :=
  String.intercalate "\n" (prompt_components settings sourceText)

/-- `MainWindow.call_generate_cover_letter` (lines 351-371): clears the
conversation memory, builds the prompt from the settings and the HTML editor
text, and runs `count_tokens` on it.  Returns the updated state, the backend
call records and the cover letter (the per-call token count is discarded by
the source). -/
def call_generate_cover_letter (b : Backend) (s : AppState) :
    AppState × List CallRec × Except String String :=
  let s1 := { s with memory := [] }
  let prompt := generation_prompt s1.settings s1.htmlEditor
  match count_tokens b s1.llm s1.memory prompt with
  | (calls, .ok (coverLetter, _toks, memAfter)) =>
      ({ s1 with memory := memAfter }, calls, .ok coverLetter)
  | (calls, .error e) => (s1, calls, .error e)

/-- `MainWindow.generate_cover_letter` (lines 326-336): if the stripped HTML
editor text is empty, shows a warning (modelled as the `"empty source"`
error) and changes nothing; otherwise runs `call_generate_cover_letter`,
and on success writes the result into the cover-letter display and switches
to tab 1 (Review).  On a backend failure the exception propagates out of the
worker and neither the display nor the tab is changed (but the memory was
already cleared by `call_generate_cover_letter`). -/
def generate_cover_letter (b : Backend) (s : AppState) :
    AppState × List CallRec × Except String Unit :=
  if pyStrip s.htmlEditor = "" then
    (s, [], .error "empty source")
  else
    match call_generate_cover_letter b s with
    | (s1, calls, .ok coverLetter) =>
        ({ s1 with coverLetterDisplay := coverLetter, tabIndex := 1 }, calls, .ok ())
    | (s1, calls, .error e) => (s1, calls, .error e)

/-- The fixed second input of `call_send_message` (line 375). -/
def regenerationRequest : String := "Please generate an updated cover letter."

/-- `MainWindow.call_send_message` (lines 373-376): two sequential
`chain.run` calls on the same chain — the first with the user's message, the
second (only reached if the first returned) with the fixed regeneration
request, whose context therefore contains the first exchange. -/
def call_send_message (b : Backend) (llm : LLMHandle) (mem : List ChatMsg)
    (userMessage : String) :
    List CallRec × Except String (String × String × List ChatMsg) :=
  match chainRun b llm mem userMessage with
  | (calls1, .error e) => (calls1, .error e)
  | (calls1, .ok (response, mem1, _)) =>
      match chainRun b llm mem1 regenerationRequest with
      | (calls2, .error e) => (calls1 ++ calls2, .error e)
      | (calls2, .ok (updated, mem2, _)) =>
          (calls1 ++ calls2, .ok (response, updated, mem2))

/-- `MainWindow.send_message` (lines 279-291): reads the chat input; if it is
non-empty (Python truthiness, no trimming) appends `You: <msg>` to the chat
display and clears the input; then — unconditionally, the `with` block is
outside the `if` — runs `call_send_message` in the worker.  On success appends
`Bot: <response>` and overwrites the cover-letter display; on failure the
exception propagates and only the changes made so far remain. -/
def send_message (b : Backend) (s : AppState) :
    AppState × List CallRec × Except String Unit :=
  let userMessage := s.chatInput
  let s1 :=
    if userMessage = "" then s
    else { s with chatDisplay := s.chatDisplay ++ ["You: " ++ userMessage], chatInput := "" }
  match call_send_message b s1.llm s1.memory userMessage with
  | (calls, .error e) => (s1, calls, .error e)
  | (calls, .ok (response, updatedCoverLetter, memAfter)) =>
      ({ s1 with
          memory := memAfter,
          chatDisplay := s1.chatDisplay ++ ["Bot: " ++ response],
          coverLetterDisplay := updatedCoverLetter },
       calls, .ok ())

/-- `MainWindow.go_to_paste_webpage` (lines 338-344): if the current tab is 1
and the stripped HTML editor text is empty, shows a warning and stays;
otherwise navigates to tab 0. -/
def go_to_paste_webpage (s : AppState) : AppState :=
  if s.tabIndex = 1 ∧ pyStrip s.htmlEditor = "" then s
  else { s with tabIndex := 0 }

/-- The three input widgets of the `SettingsDialog`. -/
structure DialogInputs where
  api_key_input : String
  resume_input : String
  initial_prompt_input : String
deriving DecidableEq, Repr

/-- The `settings.json` file on disk: absent, present but not valid JSON
(so `json.load` raises), or holding a parsed settings record. -/
inductive SettingsFile where
  | absent
  | unparseable
  | record (s : Settings)
deriving DecidableEq, Repr

/-- `os.path.exists("settings.json")`. -/
def settingsFileExists : SettingsFile → Bool
  | .absent => false
  | .unparseable => true
  | .record _ => true

/-- The outcome of `SettingsDialog.save_settings` (lines 86-97): the mutated
in-memory settings, the settings file afterwards, and whether the dialog was
accepted. -/
structure SaveOutcome where
  settings : Settings
  file : SettingsFile
  accepted : Bool
deriving DecidableEq, Repr

/-- `SettingsDialog.save_settings` (lines 86-97): copies the three input
fields into the settings object first; if any of them is empty (Python
truthiness) it warns and returns without writing; otherwise it writes the
record to `settings.json` and accepts the dialog. -/
def save_settings (inputs : DialogInputs) (settings : Settings) (file : SettingsFile) :
    SaveOutcome :=
  let settings1 : Settings :=
    ⟨inputs.api_key_input, inputs.resume_input, inputs.initial_prompt_input⟩
  if settings1.api_key = "" ∨ settings1.resume = "" ∨ settings1.initial_prompt = "" then
    ⟨settings1, file, false⟩
  else
    ⟨settings1, SettingsFile.record settings1, true⟩

/-- `SettingsDialog.load_settings` (lines 99-112): if `settings.json` exists
it is opened and `json.load`-ed with no exception handler, so an unparseable
file raises (modelled as `Except.error`); a parsed record replaces the
settings; an absent file leaves the settings unchanged (only placeholders are
set, which carry no state). -/
def load_settings (file : SettingsFile) (settings : Settings) : Except String Settings :=
  match file with
  | .absent => .ok settings
  | .unparseable => .error "JSONDecodeError"
  | .record loaded => .ok loaded

/-- The interactive `SettingsDialog.exec()` loop: each element of `attempts`
is one press of the Save button; the dialog closes at the first accepted
save (`self.accept()`), and the user may also close it without a successful
save (end of the list).  Rejected saves still mutate the shared settings
object. -/
def dialog_exec (attempts : List DialogInputs) (settings : Settings) (file : SettingsFile) :
    Settings × SettingsFile :=
  match attempts with
  | [] => (settings, file)
  | i :: rest =>
      let r := save_settings i settings file
      if r.accepted then (r.settings, r.file)
      else dialog_exec rest r.settings r.file

/-- `MainWindow.check_settings` (lines 294-305): constructs a
`SettingsDialog` (whose `__init__` runs `load_settings`, so a parse failure
propagates); if the file does not exist or any settings field is empty, shows
the info box and runs the settings dialog (modelled by `dialog_exec` over the
user's save attempts); otherwise only reloads the settings.  Returns the
settings object and the file afterwards. -/
def check_settings_run (file : SettingsFile) (attempts : List DialogInputs)
    (settings : Settings) : Except String (Settings × SettingsFile) :=
  match load_settings file settings with
  | .error e => .error e
  | .ok s1 =>
      if settingsFileExists file
          ∧ s1.api_key ≠ "" ∧ s1.resume ≠ "" ∧ s1.initial_prompt ≠ "" then
        .ok (s1, file)
      else
        .ok (dialog_exec attempts s1 file)

/-- `MainWindow.__init__` (lines 174-226), restricted to the workflow state:
starts from empty settings, runs `check_settings` (line 221), then creates
the `ChatOpenAI` handle bound to `self.settings.api_key` as it is at that
moment (line 224), a fresh `ConversationBufferMemory` and the chain.  All
widget texts start empty and the tab index at 0. -/
def mkMainWindow (file : SettingsFile) (setupAttempts : List DialogInputs) :
    Except String AppState :=
  match check_settings_run file setupAttempts ⟨"", "", ""⟩ with
  | .error e => .error e
  | .ok (settings1, file1) =>
      .ok { settings := settings1,
            persistedFile := match file1 with
              | .record r => some r
              | _ => none,
            llm := ⟨"gpt-4o", settings1.api_key⟩,
            memory := [],
            htmlEditor := "",
            coverLetterDisplay := "",
            chatDisplay := [],
            chatInput := "",
            tabIndex := 0 }

/-- The mime data seen by `HtmlTextEdit.insertFromMimeData` (lines 115-124):
`source.hasHtml()`, `source.html()` and the plain-text fallback that the
default `QTextEdit` paste would insert. -/
structure MimeData where
  hasHtml : Bool
  html : String
  plainText : String
deriving DecidableEq, Repr

/-- `HtmlTextEdit.insertFromMimeData` (lines 115-124), as the text the paste
contributes: when the source has an HTML representation, the `markdownify`
conversion (`mdConvert`, an abstract total function — the library is external
to this repository) of the HTML, stripped; otherwise the plain-text fallback
via `super().insertFromMimeData`, unchanged. -/
def insertFromMimeData (mdConvert : String → String) (source : MimeData) : String :=
  if source.hasHtml then pyStrip (mdConvert source.html)
  else source.plainText

/-- `MainWindow.show_settings_dialog` (lines 307-310): constructs a
`SettingsDialog` (whose `__init__` runs `load_settings`) and execs it; the
status-bar message carries no workflow state.  During a run the persisted
file is either absent or a record previously parsed/written, so the
`json.load` of `load_settings` cannot fail here and the fallback branch is
unreachable.  The `ChatOpenAI` handle and chain are not touched. -/
def show_settings_dialog (attempts : List DialogInputs) (s : AppState) : AppState :=
  let file := match s.persistedFile with
    | some r => SettingsFile.record r
    | none => SettingsFile.absent
  let s1 := match load_settings file s.settings with
    | .ok v => v
    | .error _ => s.settings
  let r := dialog_exec attempts s1 file
  { s with
      settings := r.1,
      persistedFile := match r.2 with
        | .record rec => some rec
        | _ => none }

/-- A sequence of later `show_settings_dialog` invocations, each with its own
list of save attempts. -/
def runSettingsDialogs (ops : List (List DialogInputs)) (s : AppState) : AppState :=
  ops.foldl (fun st attempts => show_settings_dialog attempts st) s

/-- The completeness condition on settings used throughout `main.py`
(Python truthiness of the three fields). -/
def completeSettings (s : Settings) : Prop :=
  s.api_key ≠ "" ∧ s.resume ≠ "" ∧ s.initial_prompt ≠ ""

instance (s : Settings) : Decidable (completeSettings s) := by
  unfold completeSettings; infer_instance

/-! Helper lemmas shared by the claim theorems. -/

/-- A string whose trimmed form is non-empty is itself non-empty. -/
theorem ne_empty_of_pyStrip_ne_empty (x : String) (h : pyStrip x ≠ "") : x ≠ "" :=
  fun hx => h (by rw [hx]; rfl)

/-! Concrete states and backends used by counterexamples and witnesses. -/

/-- Complete settings used by several concrete states. -/
def demoSettings : Settings := ⟨"k", "R", "I"⟩

/-- A Review-phase state whose HTML editor text is whitespace-only. -/
def c5State : AppState :=
  { settings := demoSettings,
    persistedFile := some demoSettings,
    llm := ⟨"gpt-4o", "k"⟩,
    memory := [],
    htmlEditor := "   ",
    coverLetterDisplay := "Letter v1",
    chatDisplay := [],
    chatInput := "",
    tabIndex := 1 }

/-- A Review-phase state with a non-blank source text. -/
def c5wState : AppState := { c5State with htmlEditor := "Job posting text" }

/-- C5: the claim says `returnToSource()` is unconditional from every Review
state.  Counterexample: in the Review phase with whitespace-only source text,
`go_to_paste_webpage` shows a warning and stays on tab 1 (Review); the phase
does not change to Source. -/
theorem C5_counterexample :
    c5State.tabIndex = 1 ∧ go_to_paste_webpage c5State = c5State ∧
      (go_to_paste_webpage c5State).tabIndex ≠ 0 :=
  ⟨rfl, by decide, by decide⟩

/-- C5 (amended): from the Review phase, `returnToSource()` transitions to
Source whenever the source text is non-empty after trimming; when the trimmed
source text is empty it warns and leaves the state (and phase) unchanged. -/
theorem C5_return_to_source (s : AppState) (hphase : s.tabIndex = 1) :
    (pyStrip s.htmlEditor ≠ "" → (go_to_paste_webpage s).tabIndex = 0)
    ∧ (pyStrip s.htmlEditor = "" → go_to_paste_webpage s = s) := by
  constructor <;> intro h <;> simp [go_to_paste_webpage, hphase, h]

/-- Witness for C5: a concrete Review state with non-blank source text is sent
back to tab 0. -/
theorem C5_return_to_source_witness :
    c5wState.tabIndex = 1 ∧ pyStrip c5wState.htmlEditor ≠ "" ∧
      (go_to_paste_webpage c5wState).tabIndex = 0 :=
  ⟨rfl, by decide, (C5_return_to_source c5wState rfl).1 (by decide)⟩

/-- C6: `save_settings` atomically validates then persists: if any of the
three input fields is empty the file is left untouched and the dialog is not
accepted; if all three are non-empty the record written is exactly the three
inputs and the dialog is accepted. -/
theorem C6_save_settings (inputs : DialogInputs) (settings : Settings)
    (file : SettingsFile) :
    ((inputs.api_key_input = "" ∨ inputs.resume_input = ""
        ∨ inputs.initial_prompt_input = "") →
      (save_settings inputs settings file).file = file
      ∧ (save_settings inputs settings file).accepted = false)
    ∧ (inputs.api_key_input ≠ "" → inputs.resume_input ≠ "" →
        inputs.initial_prompt_input ≠ "" →
      (save_settings inputs settings file).file =
        SettingsFile.record
          ⟨inputs.api_key_input, inputs.resume_input, inputs.initial_prompt_input⟩
      ∧ (save_settings inputs settings file).accepted = true) := by
  constructor
  · intro h
    constructor <;> simp [save_settings, h]
  · intro h1 h2 h3
    constructor <;> simp [save_settings, h1, h2, h3]

/-- Witness for C6: a save with an empty resume leaves the file untouched; a
save with all three fields non-empty writes exactly those fields. -/
theorem C6_save_settings_witness :
    (save_settings ⟨"k", "", "I"⟩ demoSettings SettingsFile.absent).file =
      SettingsFile.absent
    ∧ (save_settings ⟨"k2", "R2", "I2"⟩ demoSettings SettingsFile.absent).file =
        SettingsFile.record ⟨"k2", "R2", "I2"⟩ :=
  ⟨((C6_save_settings ⟨"k", "", "I"⟩ demoSettings SettingsFile.absent).1
      (Or.inr (Or.inl rfl))).1,
   ((C6_save_settings ⟨"k2", "R2", "I2"⟩ demoSettings SettingsFile.absent).2
      (by decide) (by decide) (by decide)).1⟩

/-- C7 counterexample: the claim says a parse failure of `settings.json` is
treated like absence, with no error escaping.  In the code `json.load` runs
with no exception handler, so with an existing but unparseable file both
`load_settings` and the startup `check_settings` path propagate the parse
error instead of routing into the settings-setup flow. -/
theorem C7_counterexample :
    load_settings SettingsFile.unparseable ⟨"", "", ""⟩ = .error "JSONDecodeError"
    ∧ check_settings_run SettingsFile.unparseable [] ⟨"", "", ""⟩ =
        .error "JSONDecodeError" :=
  ⟨rfl, rfl⟩

/-- C7 (amended): absence of the persisted record is treated as "no settings
yet" — no error escapes and the caller is routed into the settings-setup
dialog flow; a parse failure of an existing record, however, is not handled
and the error propagates. -/
theorem C7_absent_routes_to_setup (settings : Settings) (attempts : List DialogInputs) :
    load_settings SettingsFile.absent settings = .ok settings
    ∧ check_settings_run SettingsFile.absent attempts settings =
        .ok (dialog_exec attempts settings SettingsFile.absent) := by
  refine ⟨rfl, ?_⟩
  simp [check_settings_run, load_settings, settingsFileExists]

/-- C8: ingestion of pasted content.  Without a markup representation the
plain-text fallback passes through unchanged (so re-ingesting already-plain
text is the identity); with a markup representation the output is the
`markdownify` conversion trimmed of leading/trailing whitespace; the function
is deterministic (equal inputs give equal outputs) and, being a total Lean
function over a total conversion function, never fails. -/
theorem C8_markup_ingestion (mdConvert : String → String) (source : MimeData) :
    (source.hasHtml = false → insertFromMimeData mdConvert source = source.plainText)
    ∧ (source.hasHtml = false →
        insertFromMimeData mdConvert
            ⟨false, source.html, insertFromMimeData mdConvert source⟩
          = insertFromMimeData mdConvert source)
    ∧ (source.hasHtml = true →
        insertFromMimeData mdConvert source = pyStrip (mdConvert source.html))
    ∧ (∀ source2 : MimeData, source = source2 →
        insertFromMimeData mdConvert source = insertFromMimeData mdConvert source2) := by
  refine ⟨fun h => ?_, fun h => ?_, fun h => ?_, fun source2 h => ?_⟩
  · simp [insertFromMimeData, h]
  · simp [insertFromMimeData]
  · simp [insertFromMimeData, h]
  · rw [h]

/-- Witness for C8: pastes without markup pass through unchanged; pastes with
markup are converted and trimmed. -/
theorem C8_markup_ingestion_witness :
    (MimeData.hasHtml ⟨false, "", "already plain"⟩ = false
      ∧ insertFromMimeData (fun h => h) ⟨false, "", "already plain"⟩ = "already plain")
    ∧ (MimeData.hasHtml ⟨true, " converted ", "fallback"⟩ = true
      ∧ insertFromMimeData (fun h => h) ⟨true, " converted ", "fallback"⟩ = "converted") :=
  ⟨⟨rfl, (C8_markup_ingestion (fun h => h) ⟨false, "", "already plain"⟩).1 rfl⟩,
   ⟨rfl, by
      have := (C8_markup_ingestion (fun h => h) ⟨true, " converted ", "fallback"⟩).2.2.1 rfl
      rw [this]; decide⟩⟩

/-- The generation prompt as claim C9 words it: the initial instruction, then
a labeled delimited block with the verbatim resume text, then a labeled
delimited block with the verbatim (untrimmed) ingested source text. -/
def claimed_generation_prompt (settings : Settings) (sourceText : String) : String :=
  String.intercalate "\n"
    [settings.initial_prompt,
     "Here is the resume:",
     "```",
     settings.resume,
     "```",
     "Here is the webpage content:",
     "```",
     sourceText,
     "```"]

/-- C9 counterexample: for an ingested source text with surrounding
whitespace, the prompt the code builds contains the trimmed text, not the
verbatim text, so it differs from the claimed prompt. -/
theorem C9_counterexample :
    generation_prompt demoSettings " job posting " ≠
      claimed_generation_prompt demoSettings " job posting "
    ∧ generation_prompt demoSettings " job posting " =
        claimed_generation_prompt demoSettings "job posting" := by
  constructor
  · decide
  · rfl

/-- C9 (amended): the generation prompt is the claimed fixed-order
concatenation — initial instruction, labeled delimited verbatim resume block,
labeled delimited source block — except that the ingested source text is
stripped of leading/trailing whitespace before being placed in its block. -/
theorem C9_prompt_structure (settings : Settings) (sourceText : String) :
    generation_prompt settings sourceText =
      claimed_generation_prompt settings (pyStrip sourceText) := rfl

/-- A Review-phase state whose chat input is whitespace-only. -/
def c3State : AppState :=
  { settings := demoSettings,
    persistedFile := some demoSettings,
    llm := ⟨"gpt-4o", "k"⟩,
    memory := [],
    htmlEditor := "job",
    coverLetterDisplay := "Letter v1",
    chatDisplay := ["You: hi", "Bot: hello"],
    chatInput := "   ",
    tabIndex := 1 }

/-- A backend that always replies `"reply"`. -/
def c3Backend : Backend := fun _ _ _ => .ok ("reply", 1)

/-- C3: the code contradicts the claim that an empty-after-trimming message is
a no-op.  For the whitespace-only input `"   "` the code appends a user turn,
issues two backend calls and overwrites the cover letter; even for the empty
input `""` (where no turn is appended) it still issues two backend calls. -/
theorem C3_code_behavior :
    pyStrip c3State.chatInput = ""
    ∧ (send_message c3Backend c3State).2.1.length = 2
    ∧ (send_message c3Backend c3State).1.chatDisplay =
        c3State.chatDisplay ++ ["You: " ++ "   ", "Bot: reply"]
    ∧ (send_message c3Backend c3State).1.coverLetterDisplay = "reply"
    ∧ (send_message c3Backend { c3State with chatInput := "" }).2.1.length = 2 := by
  refine ⟨by decide, ?_, ?_, ?_, ?_⟩ <;> rfl

/-- A Source-phase state with whitespace-only source text and complete
settings. -/
def c1State : AppState :=
  { settings := demoSettings,
    persistedFile := some demoSettings,
    llm := ⟨"gpt-4o", "k"⟩,
    memory := [],
    htmlEditor := " ",
    coverLetterDisplay := "",
    chatDisplay := [],
    chatInput := "",
    tabIndex := 0 }

/-- A backend that always succeeds with a fixed letter. -/
def c1Backend : Backend := fun _ _ _ => .ok ("GENERATED LETTER", 7)

/-- C1 counterexample: a Source-phase state with non-empty (but whitespace
only) source text, complete settings, and a backend ready to succeed on the
very prompt a generation run would issue; yet `generate_cover_letter` makes
no backend call, keeps the phase at Source and fails with the validation
error — the code gates on the text being non-empty after stripping, not on
being non-empty. -/
theorem C1_counterexample :
    c1State.tabIndex = 0
    ∧ c1State.htmlEditor ≠ ""
    ∧ completeSettings c1State.settings
    ∧ c1Backend c1State.llm [] (generation_prompt c1State.settings c1State.htmlEditor) =
        .ok ("GENERATED LETTER", 7)
    ∧ generate_cover_letter c1Backend c1State = (c1State, [], .error "empty source") :=
  ⟨rfl, by decide, by decide, rfl, rfl⟩

/-- C1 (amended): from every Source-phase state with complete settings — if
the source text is empty after trimming, `generate()` fails with the
validation error, changes nothing and makes no backend call; if it is
non-empty after trimming and the backend call succeeds, the phase becomes
Review and the artifact is set to the text the backend returned (exactly one
backend call being issued). -/
theorem C1_generate_gate (b : Backend) (s : AppState)
    (hphase : s.tabIndex = 0) (hset : completeSettings s.settings) :
    (pyStrip s.htmlEditor = "" →
      generate_cover_letter b s = (s, [], .error "empty source"))
    ∧ (pyStrip s.htmlEditor ≠ "" →
      ∀ letter toks,
        b s.llm [] (generation_prompt s.settings s.htmlEditor) = .ok (letter, toks) →
        (generate_cover_letter b s).1.tabIndex = 1
        ∧ (generate_cover_letter b s).1.coverLetterDisplay = letter
        ∧ (generate_cover_letter b s).2.2 = .ok ()
        ∧ (generate_cover_letter b s).2.1 =
            [⟨s.llm, [], generation_prompt s.settings s.htmlEditor⟩]) := by
  constructor
  · intro h
    simp [generate_cover_letter, h]
  · intro h letter toks hb
    refine ⟨?_, ?_, ?_, ?_⟩ <;>
      simp [generate_cover_letter, call_generate_cover_letter, count_tokens, chainRun, h, hb]

/-- A Source-phase state with a real source text and complete settings. -/
def c1wState : AppState := { c1State with htmlEditor := "Job posting text" }

/-- A backend that always succeeds with the letter `"LETTER"`. -/
def c1wBackend : Backend := fun _ _ _ => .ok ("LETTER", 5)

/-- Witness for C1 (amended): a successful generation run from a concrete
Source-phase state lands in Review with the backend's letter displayed. -/
theorem C1_generate_gate_witness :
    c1wState.tabIndex = 0
    ∧ completeSettings c1wState.settings
    ∧ pyStrip c1wState.htmlEditor ≠ ""
    ∧ c1wBackend c1wState.llm [] (generation_prompt c1wState.settings c1wState.htmlEditor)
        = .ok ("LETTER", 5)
    ∧ (generate_cover_letter c1wBackend c1wState).1.tabIndex = 1
    ∧ (generate_cover_letter c1wBackend c1wState).1.coverLetterDisplay = "LETTER" :=
  ⟨rfl, by decide, by decide, rfl,
   ((C1_generate_gate c1wBackend c1wState rfl (by decide)).2 (by decide) "LETTER" 5 rfl).1,
   ((C1_generate_gate c1wBackend c1wState rfl (by decide)).2 (by decide) "LETTER" 5 rfl).2.1⟩

/-- C4: every successful generation run issues exactly one backend call; its
conversation context is the just-cleared, empty turn history (whatever turns
had accumulated before), and the usage accounting runs in a fresh callback
whose counter starts at zero, so the total it reports is exactly this one
call's usage. -/
theorem C4_fresh_context_on_generate (b : Backend) (s : AppState)
    (hok : (generate_cover_letter b s).2.2 = .ok ()) :
    (generate_cover_letter b s).2.1 =
      [⟨s.llm, [], generation_prompt s.settings s.htmlEditor⟩]
    ∧ (∀ letter toks,
        b s.llm [] (generation_prompt s.settings s.htmlEditor) = .ok (letter, toks) →
        (count_tokens b s.llm [] (generation_prompt s.settings s.htmlEditor)).2 =
          .ok (letter, 0 + toks,
            [ChatMsg.user (generation_prompt s.settings s.htmlEditor), ChatMsg.ai letter])) := by
  constructor
  · by_cases h : pyStrip s.htmlEditor = ""
    · exfalso
      simp [generate_cover_letter, h] at hok
    · cases hb : b s.llm [] (generation_prompt s.settings s.htmlEditor) with
      | error e =>
          exfalso
          simp [generate_cover_letter, call_generate_cover_letter, count_tokens,
                chainRun, h, hb] at hok
      | ok p =>
          obtain ⟨letter, toks⟩ := p
          simp [generate_cover_letter, call_generate_cover_letter, count_tokens,
                chainRun, h, hb]
  · intro letter toks hb
    simp [count_tokens, chainRun, hb]

/-- A Source-phase state carrying leftover conversation turns from an earlier
chat. -/
def c4State : AppState :=
  { settings := demoSettings,
    persistedFile := some demoSettings,
    llm := ⟨"gpt-4o", "k"⟩,
    memory := [ChatMsg.user "old message", ChatMsg.ai "old reply"],
    htmlEditor := "Job posting text",
    coverLetterDisplay := "old letter",
    chatDisplay := [],
    chatInput := "",
    tabIndex := 0 }

/-- A backend that always succeeds with the letter `"LETTER"`. -/
def c4Backend : Backend := fun _ _ _ => .ok ("LETTER", 5)

/-- Witness for C4: a successful generation from a state with leftover turns
issues its single backend call with an empty context. -/
theorem C4_fresh_context_on_generate_witness :
    (generate_cover_letter c4Backend c4State).2.2 = .ok ()
    ∧ (generate_cover_letter c4Backend c4State).2.1 =
        [⟨c4State.llm, [], generation_prompt c4State.settings c4State.htmlEditor⟩] :=
  ⟨rfl, (C4_fresh_context_on_generate c4Backend c4State rfl).1⟩

/-- C2: for chat input that is non-empty after trimming — on success of both
backend calls, `send_message` appends the user turn, issues exactly the two
backend calls in order (the second on the same session context, now holding
the first exchange), appends the first reply as the assistant turn, overwrites
the artifact with the second call's output, and keeps the phase; if the first
call fails, only that one call was issued, the phase stays Review, the user
turn is retained and no assistant turn is appended. -/
theorem C2_send_message_exchange (b : Backend) (s : AppState)
    (hphase : s.tabIndex = 1) (hne : pyStrip s.chatInput ≠ "") :
    (∀ r1 t1 r2 t2,
      b s.llm s.memory s.chatInput = .ok (r1, t1) →
      b s.llm (s.memory ++ [ChatMsg.user s.chatInput, ChatMsg.ai r1]) regenerationRequest
        = .ok (r2, t2) →
      (send_message b s).2.1 =
        [⟨s.llm, s.memory, s.chatInput⟩,
         ⟨s.llm, s.memory ++ [ChatMsg.user s.chatInput, ChatMsg.ai r1], regenerationRequest⟩]
      ∧ (send_message b s).1.chatDisplay =
          s.chatDisplay ++ ["You: " ++ s.chatInput, "Bot: " ++ r1]
      ∧ (send_message b s).1.coverLetterDisplay = r2
      ∧ (send_message b s).1.tabIndex = s.tabIndex
      ∧ (send_message b s).2.2 = .ok ())
    ∧ (∀ e,
      b s.llm s.memory s.chatInput = .error e →
      (send_message b s).2.1 = [⟨s.llm, s.memory, s.chatInput⟩]
      ∧ (send_message b s).1 =
          { s with chatDisplay := s.chatDisplay ++ ["You: " ++ s.chatInput],
                   chatInput := "" }
      ∧ (send_message b s).2.2 = .error e) := by
  have hne0 : s.chatInput ≠ "" := ne_empty_of_pyStrip_ne_empty s.chatInput hne
  constructor
  · intro r1 t1 r2 t2 hb1 hb2
    refine ⟨?_, ?_, ?_, ?_, ?_⟩ <;>
      simp [send_message, call_send_message, chainRun, hne0, hb1, hb2]
  · intro e hb1
    refine ⟨?_, ?_, ?_⟩ <;>
      simp [send_message, call_send_message, chainRun, hne0, hb1]

/-- A Review-phase state with chat input `"make it shorter"` and artifact
`"Letter v1"`. -/
def c2State : AppState :=
  { settings := demoSettings,
    persistedFile := some demoSettings,
    llm := ⟨"gpt-4o", "k"⟩,
    memory := [],
    htmlEditor := "job",
    coverLetterDisplay := "Letter v1",
    chatDisplay := [],
    chatInput := "make it shorter",
    tabIndex := 1 }

/-- A backend answering `"make it shorter"` with a short reply and any other
input with the regenerated letter. -/
def c2Backend : Backend := fun _ _ input =>
  if input = "make it shorter" then .ok ("Sure, shortening it.", 3)
  else .ok ("Letter v2", 4)

/-- Witness for C2: the concrete chat exchange of the spec's Scenario B. -/
theorem C2_send_message_exchange_witness :
    c2State.tabIndex = 1
    ∧ pyStrip c2State.chatInput ≠ ""
    ∧ ((send_message c2Backend c2State).2.1 =
        [⟨c2State.llm, c2State.memory, c2State.chatInput⟩,
         ⟨c2State.llm,
          c2State.memory ++ [ChatMsg.user c2State.chatInput, ChatMsg.ai "Sure, shortening it."],
          regenerationRequest⟩]
      ∧ (send_message c2Backend c2State).1.chatDisplay =
          c2State.chatDisplay ++ ["You: " ++ c2State.chatInput, "Bot: " ++ "Sure, shortening it."]
      ∧ (send_message c2Backend c2State).1.coverLetterDisplay = "Letter v2"
      ∧ (send_message c2Backend c2State).1.tabIndex = c2State.tabIndex
      ∧ (send_message c2Backend c2State).2.2 = .ok ()) :=
  ⟨rfl, by decide,
   (C2_send_message_exchange c2Backend c2State rfl (by decide)).1
     "Sure, shortening it." 3 "Letter v2" 4 rfl rfl⟩

/-- The settings dialog never touches the `ChatOpenAI` handle. -/
theorem show_settings_dialog_llm (attempts : List DialogInputs) (s : AppState) :
    (show_settings_dialog attempts s).llm = s.llm := rfl

/-- Any sequence of settings dialogs never touches the `ChatOpenAI` handle. -/
theorem runSettingsDialogs_llm (ops : List (List DialogInputs)) (s : AppState) :
    (runSettingsDialogs ops s).llm = s.llm := by
  induction ops generalizing s with
  | nil => rfl
  | cons a rest ih =>
      have h1 : runSettingsDialogs (a :: rest) s
          = runSettingsDialogs rest (show_settings_dialog a s) := rfl
      rw [h1, ih, show_settings_dialog_llm]

/-- Every backend call a generation run issues goes through the state's
current handle. -/
theorem generate_calls_llm (b : Backend) (s : AppState) (c : CallRec)
    (hc : c ∈ (generate_cover_letter b s).2.1) : c.llm = s.llm := by
  by_cases h : pyStrip s.htmlEditor = ""
  · simp [generate_cover_letter, h] at hc
  · cases hb : b s.llm [] (generation_prompt s.settings s.htmlEditor) with
    | error e =>
        simp [generate_cover_letter, call_generate_cover_letter, count_tokens,
              chainRun, h, hb] at hc
        rw [hc]
    | ok p =>
        obtain ⟨letter, toks⟩ := p
        simp [generate_cover_letter, call_generate_cover_letter, count_tokens,
              chainRun, h, hb] at hc
        rw [hc]

/-- Every backend call of `call_send_message` goes through the handle it was
given. -/
theorem call_send_message_calls_llm (b : Backend) (llm : LLMHandle) (mem : List ChatMsg)
    (msg : String) (c : CallRec)
    (hc : c ∈ (call_send_message b llm mem msg).1) : c.llm = llm := by
  cases hb1 : b llm mem msg with
  | error e =>
      simp [call_send_message, chainRun, hb1] at hc
      rw [hc]
  | ok p =>
      obtain ⟨r1, t1⟩ := p
      cases hb2 : b llm (mem ++ [ChatMsg.user msg, ChatMsg.ai r1]) regenerationRequest with
      | error e =>
          simp [call_send_message, chainRun, hb1, hb2] at hc
          rcases hc with hc | hc <;> rw [hc]
      | ok q =>
          obtain ⟨r2, t2⟩ := q
          simp [call_send_message, chainRun, hb1, hb2] at hc
          rcases hc with hc | hc <;> rw [hc]

/-- The trace of `send_message` is exactly the trace of its
`call_send_message`. -/
theorem send_message_calls (b : Backend) (s : AppState) :
    (send_message b s).2.1 = (call_send_message b s.llm s.memory s.chatInput).1 := by
  by_cases hin : s.chatInput = ""
  · rcases h : call_send_message b s.llm s.memory s.chatInput with ⟨calls, res⟩
    rw [hin] at h
    rcases res with e | ⟨resp, upd, mem2⟩ <;> simp [send_message, hin, h]
  · rcases h : call_send_message b s.llm s.memory s.chatInput with ⟨calls, res⟩
    rcases res with e | ⟨resp, upd, mem2⟩ <;> simp [send_message, hin, h]

/-- Every backend call a chat exchange issues goes through the state's
current handle. -/
theorem send_calls_llm (b : Backend) (s : AppState) (c : CallRec)
    (hc : c ∈ (send_message b s).2.1) : c.llm = s.llm := by
  rw [send_message_calls] at hc
  exact call_send_message_calls_llm b s.llm s.memory s.chatInput c hc

/-- C10: the `ChatOpenAI` handle is constructed once in `__init__`, bound to
the credential held by the settings right after the startup check; any later
settings dialogs mutate the settings record and the persisted file but never
rebind the handle, and every later generation or chat backend call still goes
through the startup handle. -/
theorem C10_llm_bound_once (file : SettingsFile) (setup : List DialogInputs)
    (ops : List (List DialogInputs)) (w0 : AppState)
    (hinit : mkMainWindow file setup = .ok w0) :
    w0.llm = ⟨"gpt-4o", w0.settings.api_key⟩
    ∧ (runSettingsDialogs ops w0).llm = w0.llm
    ∧ (∀ b : Backend, ∀ c ∈ (generate_cover_letter b (runSettingsDialogs ops w0)).2.1,
        c.llm = w0.llm)
    ∧ (∀ b : Backend, ∀ c ∈ (send_message b (runSettingsDialogs ops w0)).2.1,
        c.llm = w0.llm) := by
  have hllm : w0.llm = ⟨"gpt-4o", w0.settings.api_key⟩ := by
    unfold mkMainWindow at hinit
    cases hcheck : check_settings_run file setup ⟨"", "", ""⟩ with
    | error e => rw [hcheck] at hinit; simp at hinit
    | ok p =>
        rw [hcheck] at hinit
        obtain ⟨s1, f1⟩ := p
        injection hinit with h
        rw [← h]
  refine ⟨hllm, runSettingsDialogs_llm ops w0, ?_, ?_⟩
  · intro b c hc
    rw [generate_calls_llm b _ c hc, runSettingsDialogs_llm]
  · intro b c hc
    rw [send_calls_llm b _ c hc, runSettingsDialogs_llm]

/-- A settings file holding the demo record. -/
def c10File : SettingsFile := SettingsFile.record demoSettings

/-- One later settings dialog in which the user saves a fully different
record. -/
def c10Ops : List (List DialogInputs) := [[⟨"k2", "R2", "I2"⟩]]

/-- The window state `mkMainWindow c10File []` produces. -/
def c10w0 : AppState :=
  { settings := demoSettings,
    persistedFile := some demoSettings,
    llm := ⟨"gpt-4o", "k"⟩,
    memory := [],
    htmlEditor := "",
    coverLetterDisplay := "",
    chatDisplay := [],
    chatInput := "",
    tabIndex := 0 }

/-- Witness for C10: after startup with credential `"k"` and a later settings
save that changes the credential to `"k2"`, the settings record has changed
but the handle is still bound to `"k"`. -/
theorem C10_llm_bound_once_witness :
    mkMainWindow c10File [] = .ok c10w0
    ∧ (runSettingsDialogs c10Ops c10w0).llm = c10w0.llm
    ∧ (runSettingsDialogs c10Ops c10w0).settings = ⟨"k2", "R2", "I2"⟩
    ∧ c10w0.llm = ⟨"gpt-4o", "k"⟩ :=
  ⟨rfl, (C10_llm_bound_once c10File [] c10Ops c10w0 rfl).2.1, by decide, rfl⟩

end CoverLetter
